import Mathlib

/-!
# The shared frame header of Oat (`src/SharedFrameHeader.h`)

A shallow embedding of the class `oat::SharedFrameHeader`: its five storage
cells, its constructor, its five accessors and `setParameters`, followed by
the properties of the header that the specification states.

Machine integers are integers restricted to the range of their C++ type, and
every conversion between two integer types that the C++ code performs
implicitly is an explicit function here.
-/

namespace oat

/-! ## Integer types -/

/-- The C++ type `int`: a 32-bit two's-complement integer,
`-2^31 ≤ i < 2^31`. -/
abbrev int : Type := { i : Int // -2147483648 ≤ i ∧ i < 2147483648 }

/-- The C++ type `size_t`: a 64-bit unsigned integer, `n < 2^64`. -/
abbrev size_t : Type := { n : Nat // n < 18446744073709551616 }

/-- The type `bip::managed_shared_memory::handle_t` (line 41). Boost declares
it as the segment manager's `difference_type`, that is `std::ptrdiff_t`: a
64-bit two's-complement integer, `-2^63 ≤ h < 2^63`. -/
abbrev handle_t : Type :=
  { h : Int // -9223372036854775808 ≤ h ∧ h < 9223372036854775808 }

/-- The implicit conversion `size_t → int` performed by `rows_ = rows` and
`cols_ = cols` (lines 72-73): the value is reduced modulo `2^32` and the
result is read as a two's-complement 32-bit integer. -/
def int_of_size_t (n : size_t) : int :=
  ⟨if (n.val : Int) % 4294967296 < 2147483648 then (n.val : Int) % 4294967296
    else (n.val : Int) % 4294967296 - 4294967296, by
    split <;> omega⟩

/-- The implicit conversion `int → size_t` performed by `return rows_` and
`return cols_` in accessors whose return type is `size_t` (lines 50-51): the
value is reduced modulo `2^64`. -/
def size_t_of_int (i : int) : size_t :=
  ⟨(i.val % 18446744073709551616).toNat, by
    have h := i.property
    omega⟩

/-- The handle value `0`, which the specification designates as the null
handle. -/
def NULL_HANDLE : handle_t := ⟨0, by decide⟩

/-! ## The record -/

/-- The five data members of `SharedFrameHeader` (lines 84-91), each the value
held by one `std::atomic` cell. -/
structure SharedFrameHeader where
  /-- Member `std::atomic<int> rows_`. -/
  rows_ : int
  /-- Member `std::atomic<int> cols_`. -/
  cols_ : int
  /-- Member `std::atomic<int> type_`. -/
  type_ : int
  /-- Member `std::atomic<handle_t> data_`. -/
  data_ : handle_t
  /-- Member `std::atomic<handle_t> sample_`. -/
  sample_ : handle_t
  deriving DecidableEq

/-- What the memory in which a header is constructed holds, before the
construction, in the two cells that become `data_` and `sample_`. -/
structure Storage where
  /-- Prior content of the cell of `data_`. -/
  data_ : handle_t
  /-- Prior content of the cell of `sample_`. -/
  sample_ : handle_t
  deriving DecidableEq

/-- Accessor `size_t rows() const { return rows_; }` (line 50). -/
def SharedFrameHeader.rows (self : SharedFrameHeader) : size_t :=
  size_t_of_int self.rows_

/-- Accessor `size_t cols() const { return cols_; }` (line 51). -/
def SharedFrameHeader.cols (self : SharedFrameHeader) : size_t :=
  size_t_of_int self.cols_

/-- Accessor `int type() const { return type_; }` (line 52). -/
def SharedFrameHeader.type (self : SharedFrameHeader) : int :=
  self.type_

/-- Accessor `handle_t sample() const { return sample_; }` (line 53). -/
def SharedFrameHeader.sample (self : SharedFrameHeader) : handle_t :=
  self.sample_

/-- Accessor `handle_t data() const { return data_; }` (line 54). -/
def SharedFrameHeader.data (self : SharedFrameHeader) : handle_t :=
  self.data_

/-- The member function `setParameters` (lines 65-75): five stores, in source
order, the two dimensions being converted from `size_t` to `int`. -/
def SharedFrameHeader.setParameters (self : SharedFrameHeader)
    (data sample : handle_t) (rows cols : size_t) (type : int) :
    SharedFrameHeader :=
  let self := { self with data_ := data }
  let self := { self with sample_ := sample }
  let self := { self with rows_ := int_of_size_t rows }
  let self := { self with cols_ := int_of_size_t cols }
  let self := { self with type_ := type }
  self

set_option linter.dupNamespace false in
/-- The constructor `SharedFrameHeader()` (lines 45-48) with the default
member initialisers of lines 85-91. Its body is empty and its member
initialiser list is absent, so `rows_`, `cols_` and `type_` take their brace
initialiser `{0}`, while `data_` and `sample_`, declared without an
initialiser, are default-initialised: the default constructor of
`std::atomic` (C++11 to C++17) performs no initialisation, and the cell keeps
what the storage held. -/
def SharedFrameHeader.SharedFrameHeader (mem : Storage) :
    oat.SharedFrameHeader :=
  { rows_ := ⟨0, by decide⟩
    cols_ := ⟨0, by decide⟩
    type_ := ⟨0, by decide⟩
    data_ := mem.data_
    sample_ := mem.sample_ }

/-! ## Argument tuples and observations -/

/-- One argument tuple of `setParameters`, in the order of its parameter list
(lines 65-69). -/
structure Parameters where
  /-- Parameter `const handle_t data`. -/
  data : handle_t
  /-- Parameter `const handle_t sample`. -/
  sample : handle_t
  /-- Parameter `const size_t rows`. -/
  rows : size_t
  /-- Parameter `const size_t cols`. -/
  cols : size_t
  /-- Parameter `const int type`. -/
  type : int
  deriving DecidableEq

/-- The call `setParameters(p.data, p.sample, p.rows, p.cols, p.type)`. -/
def publish (self : SharedFrameHeader) (p : Parameters) : SharedFrameHeader :=
  self.setParameters p.data p.sample p.rows p.cols p.type

/-- What a caller sees of a header: the values returned by the five
accessors. -/
structure Observation where
  /-- Result of `rows()`. -/
  rows : size_t
  /-- Result of `cols()`. -/
  cols : size_t
  /-- Result of `type()`. -/
  type : int
  /-- Result of `data()`. -/
  data : handle_t
  /-- Result of `sample()`. -/
  sample : handle_t
  deriving DecidableEq

/-- All five accessors called on one state. -/
def observe (self : SharedFrameHeader) : Observation :=
  { rows := self.rows
    cols := self.cols
    type := self.type
    data := self.data
    sample := self.sample }

/-- The state in which all five cells hold zero. -/
def zeroHeader : SharedFrameHeader :=
  { rows_ := ⟨0, by decide⟩
    cols_ := ⟨0, by decide⟩
    type_ := ⟨0, by decide⟩
    data_ := NULL_HANDLE
    sample_ := NULL_HANDLE }


/-! ## Single-field stores and loads -/

/-- The five fields of the header. Each is written by one assignment of
`setParameters` and read by the accessor of the same name. -/
inductive Field where
  | data
  | sample
  | rows
  | cols
  | type
  deriving DecidableEq

/-- A value returned by an accessor, tagged with its C++ type. -/
inductive Value where
  | size (v : size_t)
  | int (v : int)
  | handle (v : handle_t)
  deriving DecidableEq

/-- One assignment of the body of `setParameters`: `data_ = data` (line 70),
`sample_ = sample` (71), `rows_ = rows` (72), `cols_ = cols` (73) or
`type_ = type` (74). -/
def store (p : Parameters) (self : SharedFrameHeader) : Field → SharedFrameHeader
  | .data => { self with data_ := p.data }
  | .sample => { self with sample_ := p.sample }
  | .rows => { self with rows_ := int_of_size_t p.rows }
  | .cols => { self with cols_ := int_of_size_t p.cols }
  | .type => { self with type_ := p.type }

/-- The assignments of `setParameters` in source order (lines 70-74). -/
def setParametersStores : List Field :=
  [.data, .sample, .rows, .cols, .type]

/-- The accessor of a field, called on a state: the value it returns. -/
def load (self : SharedFrameHeader) : Field → Value
  | .data => .handle self.data
  | .sample => .handle self.sample
  | .rows => .size self.rows
  | .cols => .size self.cols
  | .type => .int self.type

/-- One accessor call in state-passing form: the returned value and the state
of the header after the call. The accessor bodies (lines 50-54) consist of a
single `return` of a member and contain no assignment, so the state after
the call is the state before it. -/
def call (self : SharedFrameHeader) (f : Field) : Value × SharedFrameHeader :=
  (load self f, self)

/-- A sequence of accessor calls made one after the other: the values
returned, in call order, and the state after the last call. -/
def callAll : SharedFrameHeader → List Field → List Value × SharedFrameHeader
  | self, [] => ([], self)
  | self, f :: fs =>
    let r := call self f
    let rest := callAll r.2 fs
    (r.1 :: rest.1, rest.2)

/-- One step of an execution in which a writer runs `setParameters` while a
reader calls accessors: a store of the writer or a load of the reader. Every
cell is a `std::atomic` accessed with the default sequentially consistent
ordering, so an execution is a total order of such steps. -/
inductive Event where
  | store (f : Field)
  | load (f : Field)
  deriving DecidableEq

/-- The stores of a schedule, in the order in which they occur. -/
def storesOf : List Event → List Field
  | [] => []
  | .store f :: es => f :: storesOf es
  | .load _ :: es => storesOf es

/-- The loads of a schedule, in the order in which they occur. -/
def loadsOf : List Event → List Field
  | [] => []
  | .store _ :: es => loadsOf es
  | .load f :: es => f :: loadsOf es

/-- A schedule interleaves one call of `setParameters` with one reader that
reads all five fields: its stores are the five assignments in source order,
and its loads are five loads, one of each field, in the order the reader
chooses. -/
def IsInterleaving (sched : List Event) : Prop :=
  storesOf sched = setParametersStores ∧
    (loadsOf sched).length = 5 ∧ (loadsOf sched).Nodup

instance (sched : List Event) : Decidable (IsInterleaving sched) := by
  unfold IsInterleaving
  infer_instance

/-- Execution of a schedule from a state: each store of the writer updates
the header, each load of the reader records the value the accessor returns at
that moment. The result is the final state and what the reader observed, in
the order of its loads. -/
def runSchedule (p : Parameters) :
    SharedFrameHeader → List Event → SharedFrameHeader × List (Field × Value)
  | self, [] => (self, [])
  | self, .store f :: es => runSchedule p (store p self f) es
  | self, .load f :: es =>
    let r := runSchedule p self es
    (r.1, (f, load self f) :: r.2)

/-- What a reader that loads the fields `fs` observes when the header stays
in the state `self` throughout: a snapshot of that one state. -/
def snapshot (self : SharedFrameHeader) (fs : List Field) : List (Field × Value) :=
  fs.map (fun f => (f, load self f))


/-! ## Narrowing of the dimensions, in the words of the specification -/

/-- First step of the narrowing as the specification words it: the dimension
reduced modulo `2^32`. -/
def specReduceMod32 (r : Nat) : Nat :=
  r % 4294967296

/-- Second step: a number below `2^32` read as a two's-complement 32-bit
signed integer. -/
def specAsSigned32 (m : Nat) : Int :=
  if m < 2147483648 then (m : Int) else (m : Int) - 4294967296

/-- Third step: a signed integer converted to 64-bit unsigned, `i` if
`i ≥ 0`, otherwise `2^64 + i`. -/
def specToUnsigned64 (i : Int) : Nat :=
  if 0 ≤ i then i.toNat else (18446744073709551616 + i).toNat

/-- The value the specification says a dimension accessor returns after a
store of `r`: the three steps in sequence. -/
def specReadBack (r : Nat) : Nat :=
  specToUnsigned64 (specAsSigned32 (specReduceMod32 r))

/-! ## Intermediate states of `setParameters` -/

/-- The content of the cell of a field, tagged with the C++ type of the cell:
`rows_`, `cols_` and `type_` hold an `int`, `data_` and `sample_` a
handle. -/
def cell (self : SharedFrameHeader) : Field → Value
  | .data => .handle self.data_
  | .sample => .handle self.sample_
  | .rows => .int self.rows_
  | .cols => .int self.cols_
  | .type => .int self.type_

/-- The state reached when the first `k` assignments of `setParameters` have
been executed, in source order. -/
def afterStores (p : Parameters) (self : SharedFrameHeader) (k : Nat) :
    SharedFrameHeader :=
  (setParametersStores.take k).foldl (store p) self

/-- The argument tuple of the scenario of the specification,
`setParameters(42, 7, 480, 640, 16)`. -/
def scenarioParameters : Parameters :=
  { data := ⟨42, by decide⟩
    sample := ⟨7, by decide⟩
    rows := ⟨480, by decide⟩
    cols := ⟨640, by decide⟩
    type := ⟨16, by decide⟩ }

/-! ## Basic facts -/

/-- The state after `setParameters`, cell by cell. -/
theorem setParameters_eq (self : SharedFrameHeader) (data sample : handle_t)
    (rows cols : size_t) (type : int) :
    self.setParameters data sample rows cols type =
      { rows_ := int_of_size_t rows
        cols_ := int_of_size_t cols
        type_ := type
        data_ := data
        sample_ := sample } := rfl

/-- The integer held by a dimension cell after a store of `n`. -/
theorem int_of_size_t_val (n : size_t) :
    (int_of_size_t n).val =
      if (n.val : Int) % 4294967296 < 2147483648 then (n.val : Int) % 4294967296
      else (n.val : Int) % 4294967296 - 4294967296 := by
  simp only [int_of_size_t]

/-- The number returned by a dimension accessor for a cell holding `i`. -/
theorem size_t_of_int_val (i : int) :
    (size_t_of_int i).val = (i.val % 18446744073709551616).toNat := rfl

/-- A dimension survives the store and the load unchanged when it is below
`2^31` or at least `2^64 - 2^31`. -/
theorem size_t_of_int_of_size_t (n : size_t)
    (h : n.val < 2147483648 ∨ 18446744071562067968 ≤ n.val) :
    size_t_of_int (int_of_size_t n) = n := by
  apply Subtype.ext
  rw [size_t_of_int_val, int_of_size_t_val]
  have hn := n.property
  split <;> omega

/-- A dimension that survives the store and the load unchanged is below
`2^31` or at least `2^64 - 2^31`. -/
theorem range_of_size_t_of_int_of_size_t (n : size_t)
    (h : size_t_of_int (int_of_size_t n) = n) :
    n.val < 2147483648 ∨ 18446744071562067968 ≤ n.val := by
  have hv := congrArg Subtype.val h
  rw [size_t_of_int_val, int_of_size_t_val] at hv
  have hn := n.property
  split at hv <;> omega


/-! ## Round trip (C1) -/

/-- C1, as stated, fails: on the all-zero header the call
`setParameters(42, 7, 2^31, 640, 16)` is followed by `rows() = 2^64 - 2^31`,
which is not the `rows` argument `2^31`. -/
theorem round_trip_fails_at_two_pow_31 :
    (zeroHeader.setParameters ⟨42, by decide⟩ ⟨7, by decide⟩
        ⟨2147483648, by decide⟩ ⟨640, by decide⟩ ⟨16, by decide⟩).rows
        = ⟨18446744071562067968, by decide⟩ ∧
      (zeroHeader.setParameters ⟨42, by decide⟩ ⟨7, by decide⟩
        ⟨2147483648, by decide⟩ ⟨640, by decide⟩ ⟨16, by decide⟩).rows
        ≠ ⟨2147483648, by decide⟩ := by
  decide

/-- C1, amended: for every prior state and every argument tuple whose `rows`
and `cols` are each below `2^31` or at least `2^64 - 2^31`, after one call of
`setParameters` the five accessors return exactly the tuple written. -/
theorem round_trip (self : SharedFrameHeader) (data sample : handle_t)
    (rows cols : size_t) (type : int)
    (hr : rows.val < 2147483648 ∨ 18446744071562067968 ≤ rows.val)
    (hc : cols.val < 2147483648 ∨ 18446744071562067968 ≤ cols.val) :
    (self.setParameters data sample rows cols type).rows = rows ∧
      (self.setParameters data sample rows cols type).cols = cols ∧
      (self.setParameters data sample rows cols type).type = type ∧
      (self.setParameters data sample rows cols type).data = data ∧
      (self.setParameters data sample rows cols type).sample = sample := by
  rw [setParameters_eq]
  exact ⟨size_t_of_int_of_size_t rows hr, size_t_of_int_of_size_t cols hc,
    rfl, rfl, rfl⟩

/-- The scenario of the specification: `setParameters(42, 7, 480, 640, 16)` on
the all-zero header, followed by the five accessors. -/
theorem round_trip_witness :
    (zeroHeader.setParameters ⟨42, by decide⟩ ⟨7, by decide⟩
        ⟨480, by decide⟩ ⟨640, by decide⟩ ⟨16, by decide⟩).rows
        = ⟨480, by decide⟩ ∧
      (zeroHeader.setParameters ⟨42, by decide⟩ ⟨7, by decide⟩
        ⟨480, by decide⟩ ⟨640, by decide⟩ ⟨16, by decide⟩).cols
        = ⟨640, by decide⟩ ∧
      (zeroHeader.setParameters ⟨42, by decide⟩ ⟨7, by decide⟩
        ⟨480, by decide⟩ ⟨640, by decide⟩ ⟨16, by decide⟩).type
        = ⟨16, by decide⟩ ∧
      (zeroHeader.setParameters ⟨42, by decide⟩ ⟨7, by decide⟩
        ⟨480, by decide⟩ ⟨640, by decide⟩ ⟨16, by decide⟩).data
        = ⟨42, by decide⟩ ∧
      (zeroHeader.setParameters ⟨42, by decide⟩ ⟨7, by decide⟩
        ⟨480, by decide⟩ ⟨640, by decide⟩ ⟨16, by decide⟩).sample
        = ⟨7, by decide⟩ :=
  round_trip zeroHeader ⟨42, by decide⟩ ⟨7, by decide⟩ ⟨480, by decide⟩
    ⟨640, by decide⟩ ⟨16, by decide⟩ (Or.inl (by decide)) (Or.inl (by decide))


/-! ## Default state (C2) -/

/-- The state after construction, cell by cell: the three integer cells are
zero and the two handle cells are what the storage held. -/
theorem constructor_eq (mem : Storage) :
    SharedFrameHeader.SharedFrameHeader mem =
      { rows_ := ⟨0, by decide⟩
        cols_ := ⟨0, by decide⟩
        type_ := ⟨0, by decide⟩
        data_ := mem.data_
        sample_ := mem.sample_ } := rfl

/-- C2 fails on the code: a header constructed in storage whose handle cells
hold `42` and `7` reports `rows() = 0`, `cols() = 0` and `type() = 0`, but
`data() = 42` and `sample() = 7`, neither of which is the null handle. -/
theorem fresh_header_keeps_storage_handles :
    (SharedFrameHeader.SharedFrameHeader
        ⟨⟨42, by decide⟩, ⟨7, by decide⟩⟩).rows = ⟨0, by decide⟩ ∧
      (SharedFrameHeader.SharedFrameHeader
        ⟨⟨42, by decide⟩, ⟨7, by decide⟩⟩).cols = ⟨0, by decide⟩ ∧
      (SharedFrameHeader.SharedFrameHeader
        ⟨⟨42, by decide⟩, ⟨7, by decide⟩⟩).type = ⟨0, by decide⟩ ∧
      (SharedFrameHeader.SharedFrameHeader
        ⟨⟨42, by decide⟩, ⟨7, by decide⟩⟩).data = ⟨42, by decide⟩ ∧
      (SharedFrameHeader.SharedFrameHeader
        ⟨⟨42, by decide⟩, ⟨7, by decide⟩⟩).sample = ⟨7, by decide⟩ ∧
      (SharedFrameHeader.SharedFrameHeader
        ⟨⟨42, by decide⟩, ⟨7, by decide⟩⟩).data ≠ NULL_HANDLE ∧
      (SharedFrameHeader.SharedFrameHeader
        ⟨⟨42, by decide⟩, ⟨7, by decide⟩⟩).sample ≠ NULL_HANDLE := by
  decide

/-! ## Repeated publish (C3) -/

/-- The state after `setParameters` does not depend on the state before. -/
theorem publish_prior_irrelevant (self other : SharedFrameHeader)
    (p : Parameters) : publish self p = publish other p := rfl

/-- C3: for every prior state and every non-empty list of argument tuples,
applying `setParameters` to each tuple in order leaves the header in exactly
the state that one call with the last tuple produces, whatever the state
that single call starts from. -/
theorem repeated_publish_last_wins (self other : SharedFrameHeader)
    (ps : List Parameters) (h : ps ≠ []) :
    ps.foldl publish self = publish other (ps.getLast h) := by
  have hsplit : ps.dropLast ++ [ps.getLast h] = ps :=
    List.dropLast_append_getLast h
  calc ps.foldl publish self
      = (ps.dropLast ++ [ps.getLast h]).foldl publish self := by rw [hsplit]
    _ = publish (ps.dropLast.foldl publish self) (ps.getLast h) := by
        rw [List.foldl_append]; rfl
    _ = publish other (ps.getLast h) := publish_prior_irrelevant _ _ _

/-- Three publishes on a header constructed in storage holding `42` and `7`
leave what a single publish of the third tuple leaves on the all-zero
header. -/
theorem repeated_publish_last_wins_witness :
    [(⟨⟨1, by decide⟩, ⟨2, by decide⟩, ⟨3, by decide⟩, ⟨4, by decide⟩,
        ⟨5, by decide⟩⟩ : Parameters),
      ⟨⟨-6, by decide⟩, ⟨0, by decide⟩, ⟨0, by decide⟩, ⟨9, by decide⟩,
        ⟨-1, by decide⟩⟩,
      ⟨⟨42, by decide⟩, ⟨7, by decide⟩, ⟨480, by decide⟩, ⟨640, by decide⟩,
        ⟨16, by decide⟩⟩].foldl publish
        (SharedFrameHeader.SharedFrameHeader ⟨⟨42, by decide⟩, ⟨7, by decide⟩⟩)
      = publish zeroHeader
        ⟨⟨42, by decide⟩, ⟨7, by decide⟩, ⟨480, by decide⟩, ⟨640, by decide⟩,
          ⟨16, by decide⟩⟩ :=
  repeated_publish_last_wins _ zeroHeader _ (by simp)


/-! ## Handles and type code are stored verbatim (C4) -/

/-- C4: for every prior state, all handles `d` and `s`, every `int` `t` and
all `rows` and `cols`, after `setParameters(d, s, rows, cols, t)` the
accessors give `data() = d`, `sample() = s` and `type() = t`; `sample()`
returns the data handle, or `data()` the sample handle, only when `d = s`. -/
theorem handles_and_type_verbatim (self : SharedFrameHeader) (d s : handle_t)
    (rows cols : size_t) (t : int) :
    (self.setParameters d s rows cols t).data = d ∧
      (self.setParameters d s rows cols t).sample = s ∧
      (self.setParameters d s rows cols t).type = t ∧
      ((self.setParameters d s rows cols t).sample = d → d = s) ∧
      ((self.setParameters d s rows cols t).data = s → d = s) :=
  ⟨rfl, rfl, rfl, fun h => h.symm, fun h => h⟩

/-! ## No validation (C5) -/

/-- C5, as stated, fails: on a header published with
`setParameters(42, 7, 480, 640, 16)`, the call
`setParameters(42, 7, 480, 2^32, 16)` is followed by `cols() = 0`, which is
not the supplied `cols`. -/
theorem supplied_cols_not_held_at_two_pow_32 :
    ((zeroHeader.setParameters ⟨42, by decide⟩ ⟨7, by decide⟩ ⟨480, by decide⟩
          ⟨640, by decide⟩ ⟨16, by decide⟩).setParameters
        ⟨42, by decide⟩ ⟨7, by decide⟩ ⟨480, by decide⟩
        ⟨4294967296, by decide⟩ ⟨16, by decide⟩).cols = ⟨0, by decide⟩ ∧
      ((zeroHeader.setParameters ⟨42, by decide⟩ ⟨7, by decide⟩ ⟨480, by decide⟩
          ⟨640, by decide⟩ ⟨16, by decide⟩).setParameters
        ⟨42, by decide⟩ ⟨7, by decide⟩ ⟨480, by decide⟩
        ⟨4294967296, by decide⟩ ⟨16, by decide⟩).cols
        ≠ ⟨4294967296, by decide⟩ := by
  decide

/-- C5, amended: for every prior state and every argument tuple,
`setParameters` yields a state in which `data()`, `sample()` and `type()` are
the supplied values, the cells `rows_` and `cols_` hold the supplied
dimensions converted to `int`, and `rows()`, `cols()` are the supplied
dimensions whenever these are below `2^31`; in particular `rows() = 0` after
`rows = 0`, `cols() = 0` after `cols = 0` and `data() = 0` after a null data
handle. Nothing of the previous state is kept: the same call on any other
state yields the same state. -/
theorem setParameters_accepts_everything (self : SharedFrameHeader)
    (data sample : handle_t) (rows cols : size_t) (type : int) :
    (self.setParameters data sample rows cols type).data = data ∧
      (self.setParameters data sample rows cols type).sample = sample ∧
      (self.setParameters data sample rows cols type).type = type ∧
      (self.setParameters data sample rows cols type).rows_
        = int_of_size_t rows ∧
      (self.setParameters data sample rows cols type).cols_
        = int_of_size_t cols ∧
      (rows.val < 2147483648 →
        (self.setParameters data sample rows cols type).rows = rows) ∧
      (cols.val < 2147483648 →
        (self.setParameters data sample rows cols type).cols = cols) ∧
      (rows.val = 0 →
        (self.setParameters data sample rows cols type).rows.val = 0) ∧
      (cols.val = 0 →
        (self.setParameters data sample rows cols type).cols.val = 0) ∧
      (data = NULL_HANDLE →
        (self.setParameters data sample rows cols type).data = NULL_HANDLE) ∧
      (sample = NULL_HANDLE →
        (self.setParameters data sample rows cols type).sample
          = NULL_HANDLE) ∧
      ∀ other : SharedFrameHeader,
        other.setParameters data sample rows cols type
          = self.setParameters data sample rows cols type := by
  have hrows : rows.val < 2147483648 →
      (self.setParameters data sample rows cols type).rows = rows :=
    fun h => size_t_of_int_of_size_t rows (Or.inl h)
  have hcols : cols.val < 2147483648 →
      (self.setParameters data sample rows cols type).cols = cols :=
    fun h => size_t_of_int_of_size_t cols (Or.inl h)
  refine ⟨rfl, rfl, rfl, rfl, rfl, hrows, hcols, ?_, ?_, fun h => h,
    fun h => h, fun _ => rfl⟩
  · intro h
    rw [hrows (by omega), h]
  · intro h
    rw [hcols (by omega), h]


/-! ## Accessors are pure (C6) -/

/-- A sequence of accessor calls ends in the state it started from. -/
theorem callAll_state (self : SharedFrameHeader) (fs : List Field) :
    (callAll self fs).2 = self := by
  induction fs with
  | nil => rfl
  | cons f fs ih => simpa [callAll, call] using ih

/-- A sequence of accessor calls returns, call by call, what the accessors
return on the state it started from. -/
theorem callAll_values (self : SharedFrameHeader) (fs : List Field) :
    (callAll self fs).1 = fs.map (load self) := by
  induction fs with
  | nil => rfl
  | cons f fs ih => simpa [callAll, call] using ih

/-- C6: for every state, one accessor call leaves the state unchanged; any
finite sequence of accessor calls, in any order and with repetitions, leaves
the state unchanged and returns at each call the value the accessor returns
on the initial state, so two calls of the same accessor return the same
value; and a following `setParameters` yields the state it would yield
without those calls. -/
theorem accessors_pure (self : SharedFrameHeader) (fs : List Field) :
    (∀ f : Field, (call self f).2 = self) ∧
      (callAll self fs).2 = self ∧
      (callAll self fs).1 = fs.map (load self) ∧
      (∀ i j : Nat, fs[i]? = fs[j]? →
        (callAll self fs).1[i]? = (callAll self fs).1[j]?) ∧
      ∀ p : Parameters,
        publish (callAll self fs).2 p = publish self p := by
  refine ⟨fun _ => rfl, callAll_state self fs, callAll_values self fs, ?_, ?_⟩
  · intro i j h
    rw [callAll_values, List.getElem?_map, List.getElem?_map, h]
  · intro p
    rw [callAll_state]

/-! ## The never-published state (C7) -/

/-- When the storage holds the null handle in the cell of `data_`, a fresh
header differs, through `data()`, from every state published with a data
handle that is not null. -/
theorem fresh_differs_when_storage_null (mem : Storage)
    (hmem : mem.data_ = NULL_HANDLE) (self : SharedFrameHeader)
    (p : Parameters) (hp : p.data ≠ NULL_HANDLE) :
    observe (publish self p) ≠ observe (SharedFrameHeader.SharedFrameHeader mem) := by
  intro h
  have hd := congrArg Observation.data h
  have : p.data = mem.data_ := hd
  exact hp (this.trans hmem)

/-- C7 fails on the code: the data handle `42` is not null, yet the state
`setParameters(42, 7, 0, 0, 0)` produces is, through the five accessors, the
state of a header freshly constructed in storage whose handle cells hold `42`
and `7`; `data()` of that fresh header is `42`, not the null handle. -/
theorem fresh_header_not_distinguishable :
    (⟨42, by decide⟩ : handle_t) ≠ NULL_HANDLE ∧
      observe (zeroHeader.setParameters ⟨42, by decide⟩ ⟨7, by decide⟩
          ⟨0, by decide⟩ ⟨0, by decide⟩ ⟨0, by decide⟩)
        = observe (SharedFrameHeader.SharedFrameHeader
            ⟨⟨42, by decide⟩, ⟨7, by decide⟩⟩) ∧
      (SharedFrameHeader.SharedFrameHeader
          ⟨⟨42, by decide⟩, ⟨7, by decide⟩⟩).data
        = (zeroHeader.setParameters ⟨42, by decide⟩ ⟨7, by decide⟩
          ⟨0, by decide⟩ ⟨0, by decide⟩ ⟨0, by decide⟩).data ∧
      (SharedFrameHeader.SharedFrameHeader
          ⟨⟨42, by decide⟩, ⟨7, by decide⟩⟩).data ≠ NULL_HANDLE := by
  decide


/-! ## Torn update (C8) -/

/-- The five stores, executed in source order, are `setParameters`. -/
theorem foldl_store_eq_publish (p : Parameters) (self : SharedFrameHeader) :
    setParametersStores.foldl (store p) self = publish self p := rfl

/-- A schedule of stores only ends in the state the stores produce and
observes nothing. -/
theorem runSchedule_stores (p : Parameters) (self : SharedFrameHeader)
    (ws : List Field) :
    runSchedule p self (ws.map Event.store) = (ws.foldl (store p) self, []) := by
  induction ws generalizing self with
  | nil => rfl
  | cons w ws ih => simpa [runSchedule] using ih (store p self w)

/-- A schedule of loads only leaves the state unchanged and observes a
snapshot of it. -/
theorem runSchedule_loads (p : Parameters) (self : SharedFrameHeader)
    (rs : List Field) :
    runSchedule p self (rs.map Event.load) = (self, snapshot self rs) := by
  induction rs with
  | nil => rfl
  | cons r rs ih => simp [runSchedule, snapshot, ih]

/-- Running two schedules one after the other. -/
theorem runSchedule_append (p : Parameters) (self : SharedFrameHeader)
    (es fs : List Event) :
    runSchedule p self (es ++ fs) =
      ((runSchedule p (runSchedule p self es).1 fs).1,
        (runSchedule p self es).2 ++ (runSchedule p (runSchedule p self es).1 fs).2) := by
  induction es generalizing self with
  | nil => rfl
  | cons e es ih =>
    cases e with
    | store f => simpa [runSchedule] using ih (store p self f)
    | load f => simp [runSchedule, ih self]

/-- C8: with `setParameters` as its five stores and a reader as five loads,
there are a prior state, an argument tuple and an interleaving in which the
reader observes neither the tuple before the call nor the tuple after it: it
sees the new `rows` together with the old data handle. When all loads of a
reader come before the first store, it observes the state before the call;
when all come after the last store, it observes the state after the call. -/
theorem torn_update :
    (∃ (prior : SharedFrameHeader) (q : Parameters) (sched : List Event),
        IsInterleaving sched ∧
        (runSchedule q prior sched).1 = publish prior q ∧
        (runSchedule q prior sched).2 ≠ snapshot prior (loadsOf sched) ∧
        (runSchedule q prior sched).2
          ≠ snapshot (publish prior q) (loadsOf sched) ∧
        (Field.rows, load (publish prior q) Field.rows)
          ∈ (runSchedule q prior sched).2 ∧
        (Field.data, load prior Field.data) ∈ (runSchedule q prior sched).2 ∧
        load (publish prior q) Field.rows ≠ load prior Field.rows ∧
        load (publish prior q) Field.data ≠ load prior Field.data) ∧
      ∀ (self : SharedFrameHeader) (p : Parameters) (reads : List Field),
        runSchedule p self
            (reads.map Event.load ++ setParametersStores.map Event.store)
          = (publish self p, snapshot self reads) ∧
        runSchedule p self
            (setParametersStores.map Event.store ++ reads.map Event.load)
          = (publish self p, snapshot (publish self p) reads) := by
  refine ⟨⟨zeroHeader,
    ⟨⟨42, by decide⟩, ⟨7, by decide⟩, ⟨480, by decide⟩, ⟨640, by decide⟩,
      ⟨16, by decide⟩⟩,
    [.load .data, .store .data, .store .sample, .store .rows, .load .rows,
      .load .cols, .load .type, .load .sample, .store .cols, .store .type],
    by decide⟩, fun self p reads => ⟨?_, ?_⟩⟩
  · rw [runSchedule_append, runSchedule_loads, runSchedule_stores,
      foldl_store_eq_publish]
    simp
  · rw [runSchedule_append, runSchedule_stores, runSchedule_loads,
      foldl_store_eq_publish]
    simp


/-! ## The publish transition is not tracked (C9) -/

/-- C9: calling `setParameters` with null handles, zero dimensions and type
zero on the all-zero header yields the all-zero header again, equal to the
state before the call through all five accessors; a header constructed in
storage holding null handles is in that state without any call; hence every
function of the five accessor values gives the same result before and after
the call. -/
theorem publish_transition_not_tracked :
    zeroHeader.setParameters NULL_HANDLE NULL_HANDLE ⟨0, by decide⟩
        ⟨0, by decide⟩ ⟨0, by decide⟩ = zeroHeader ∧
      observe (zeroHeader.setParameters NULL_HANDLE NULL_HANDLE ⟨0, by decide⟩
        ⟨0, by decide⟩ ⟨0, by decide⟩) = observe zeroHeader ∧
      SharedFrameHeader.SharedFrameHeader ⟨NULL_HANDLE, NULL_HANDLE⟩
        = zeroHeader ∧
      ∀ (α : Type) (f : Observation → α),
        f (observe (zeroHeader.setParameters NULL_HANDLE NULL_HANDLE
            ⟨0, by decide⟩ ⟨0, by decide⟩ ⟨0, by decide⟩))
          = f (observe zeroHeader) := by
  have h : zeroHeader.setParameters NULL_HANDLE NULL_HANDLE ⟨0, by decide⟩
      ⟨0, by decide⟩ ⟨0, by decide⟩ = zeroHeader := by decide
  exact ⟨h, by rw [h], rfl, fun _ f => by rw [h]⟩

/-! ## Round trip within the range of `int` (C10) -/

/-- C10: for every prior state, all `rows` and `cols` not above `2^31 - 1`,
every `int` type and all handles, after `setParameters` the five accessors
return exactly the tuple written, `rows()` giving `rows` and `cols()` giving
`cols`. -/
theorem round_trip_within_int_range (self : SharedFrameHeader)
    (data sample : handle_t) (rows cols : size_t) (type : int)
    (hr : rows.val ≤ 2147483647) (hc : cols.val ≤ 2147483647) :
    (self.setParameters data sample rows cols type).rows = rows ∧
      (self.setParameters data sample rows cols type).cols = cols ∧
      (self.setParameters data sample rows cols type).type = type ∧
      (self.setParameters data sample rows cols type).data = data ∧
      (self.setParameters data sample rows cols type).sample = sample := by
  rw [setParameters_eq]
  refine ⟨size_t_of_int_of_size_t rows (Or.inl ?_),
    size_t_of_int_of_size_t cols (Or.inl ?_), rfl, rfl, rfl⟩
  · omega
  · omega

/-- The extreme values of the range, with different `rows` and `cols`, on a
header that was published before. -/
theorem round_trip_within_int_range_witness :
    (⟨2147483647, by decide⟩ : size_t).val ≤ 2147483647 ∧
      (⟨1, by decide⟩ : size_t).val ≤ 2147483647 ∧
      ((zeroHeader.setParameters ⟨42, by decide⟩ ⟨7, by decide⟩
            ⟨480, by decide⟩ ⟨640, by decide⟩ ⟨16, by decide⟩).setParameters
          ⟨-9223372036854775808, by decide⟩ ⟨9223372036854775807, by decide⟩
          ⟨2147483647, by decide⟩ ⟨1, by decide⟩ ⟨-2147483648, by decide⟩).rows
        = ⟨2147483647, by decide⟩ ∧
      ((zeroHeader.setParameters ⟨42, by decide⟩ ⟨7, by decide⟩
            ⟨480, by decide⟩ ⟨640, by decide⟩ ⟨16, by decide⟩).setParameters
          ⟨-9223372036854775808, by decide⟩ ⟨9223372036854775807, by decide⟩
          ⟨2147483647, by decide⟩ ⟨1, by decide⟩ ⟨-2147483648, by decide⟩).cols
        = ⟨1, by decide⟩ ∧
      ((zeroHeader.setParameters ⟨42, by decide⟩ ⟨7, by decide⟩
            ⟨480, by decide⟩ ⟨640, by decide⟩ ⟨16, by decide⟩).setParameters
          ⟨-9223372036854775808, by decide⟩ ⟨9223372036854775807, by decide⟩
          ⟨2147483647, by decide⟩ ⟨1, by decide⟩ ⟨-2147483648, by decide⟩).type
        = ⟨-2147483648, by decide⟩ ∧
      ((zeroHeader.setParameters ⟨42, by decide⟩ ⟨7, by decide⟩
            ⟨480, by decide⟩ ⟨640, by decide⟩ ⟨16, by decide⟩).setParameters
          ⟨-9223372036854775808, by decide⟩ ⟨9223372036854775807, by decide⟩
          ⟨2147483647, by decide⟩ ⟨1, by decide⟩ ⟨-2147483648, by decide⟩).data
        = ⟨-9223372036854775808, by decide⟩ ∧
      ((zeroHeader.setParameters ⟨42, by decide⟩ ⟨7, by decide⟩
            ⟨480, by decide⟩ ⟨640, by decide⟩ ⟨16, by decide⟩).setParameters
          ⟨-9223372036854775808, by decide⟩ ⟨9223372036854775807, by decide⟩
          ⟨2147483647, by decide⟩ ⟨1, by decide⟩ ⟨-2147483648, by decide⟩).sample
        = ⟨9223372036854775807, by decide⟩ :=
  ⟨by decide, by decide,
    round_trip_within_int_range
      (zeroHeader.setParameters ⟨42, by decide⟩ ⟨7, by decide⟩
            ⟨480, by decide⟩ ⟨640, by decide⟩ ⟨16, by decide⟩)
      ⟨-9223372036854775808, by decide⟩ ⟨9223372036854775807, by decide⟩
          ⟨2147483647, by decide⟩ ⟨1, by decide⟩ ⟨-2147483648, by decide⟩
      (by decide) (by decide)⟩

/-! ## Narrowing of rows and cols (C11) -/

/-- A store of a dimension followed by a load returns what the three steps of
the specification compute. -/
theorem size_t_of_int_of_size_t_val (n : size_t) :
    (size_t_of_int (int_of_size_t n)).val = specReadBack n.val := by
  rw [size_t_of_int_val, int_of_size_t_val]
  unfold specReadBack specToUnsigned64 specAsSigned32 specReduceMod32
  have hn := n.property
  split <;> split <;> split <;> omega

/-- C11: for all `size_t` values `rows` and `cols`, after `setParameters` the
accessor `rows()` returns `rows` reduced modulo `2^32`, read as a
two's-complement 32-bit integer and converted back to 64-bit unsigned, and
`cols()` the same of `cols`; `rows() = rows` holds exactly when
`rows < 2^31` or `rows ≥ 2^64 - 2^31`, and likewise for `cols`; `2^31` reads
back as `2^64 - 2^31` and `2^32` reads back as `0`. -/
theorem dimensions_narrowed (self : SharedFrameHeader) (data sample : handle_t)
    (rows cols : size_t) (type : int) :
    (self.setParameters data sample rows cols type).rows.val
        = specReadBack rows.val ∧
      (self.setParameters data sample rows cols type).cols.val
        = specReadBack cols.val ∧
      ((self.setParameters data sample rows cols type).rows = rows ↔
        rows.val < 2147483648 ∨ 18446744071562067968 ≤ rows.val) ∧
      ((self.setParameters data sample rows cols type).cols = cols ↔
        cols.val < 2147483648 ∨ 18446744071562067968 ≤ cols.val) ∧
      (self.setParameters data sample ⟨2147483648, by decide⟩ cols type).rows.val
        = 18446744071562067968 ∧
      (self.setParameters data sample ⟨4294967296, by decide⟩ cols type).rows.val
        = 0 ∧
      (self.setParameters data sample rows ⟨2147483648, by decide⟩ type).cols.val
        = 18446744071562067968 ∧
      (self.setParameters data sample rows ⟨4294967296, by decide⟩ type).cols.val
        = 0 := by
  refine ⟨size_t_of_int_of_size_t_val rows, size_t_of_int_of_size_t_val cols,
    ⟨range_of_size_t_of_int_of_size_t rows, size_t_of_int_of_size_t rows⟩,
    ⟨range_of_size_t_of_int_of_size_t cols, size_t_of_int_of_size_t cols⟩,
    ?_, ?_, ?_, ?_⟩
  · exact (size_t_of_int_of_size_t_val _).trans (by decide)
  · exact (size_t_of_int_of_size_t_val _).trans (by decide)
  · exact (size_t_of_int_of_size_t_val _).trans (by decide)
  · exact (size_t_of_int_of_size_t_val _).trans (by decide)


/-! ## Store order inside setParameters (C12) -/

/-- The position of each field in the source order of the stores. -/
theorem indexOf_setParametersStores (f : Field) :
    setParametersStores.indexOf f =
      match f with
      | .data => 0
      | .sample => 1
      | .rows => 2
      | .cols => 3
      | .type => 4 := by
  cases f <;> simp [setParametersStores, List.indexOf_cons]

/-- After `k ≤ 5` stores the cell of a field holds the stored value when the
field is among the first `k` of the source order, and the value before the
call otherwise. -/
theorem cell_afterStores (self : SharedFrameHeader) (p : Parameters) (k : Nat)
    (hk : k ≤ 5) (f : Field) :
    cell (afterStores p self k) f =
      if setParametersStores.indexOf f < k then cell (publish self p) f
      else cell self f := by
  rw [indexOf_setParametersStores]
  obtain ⟨r, c, t, d, s⟩ := self
  interval_cases k <;> cases f <;>
    simp only [afterStores, setParametersStores, List.take, List.foldl, store,
      cell, publish, SharedFrameHeader.setParameters] <;> simp

/-- C12: with `setParameters` as five stores in the source order data,
sample, rows, cols, type, in the state reached after `k ≤ 5` of them each
cell holds its value before the call or the value the call stores; the
stores executed are the first `k` of the list, and the cell of a field holds
the stored value when the field is among them and the value before the call
otherwise. Hence once `rows_`, `cols_` or `type_` has been stored, `data_`
and `sample_` hold the new handles, and the state after the fifth store is
the result of `setParameters`. -/
theorem store_order (self : SharedFrameHeader) (p : Parameters) (k : Nat)
    (hk : k ≤ 5) :
    (∀ f : Field, cell (afterStores p self k) f = cell self f ∨
        cell (afterStores p self k) f = cell (publish self p) f) ∧
      (∀ f : Field, f ∈ setParametersStores.take k ↔
        setParametersStores.indexOf f < k) ∧
      (∀ f : Field, cell (afterStores p self k) f =
        if setParametersStores.indexOf f < k then cell (publish self p) f
        else cell self f) ∧
      (∀ f : Field, f = Field.rows ∨ f = Field.cols ∨ f = Field.type →
        setParametersStores.indexOf f < k →
        cell (afterStores p self k) Field.data
            = cell (publish self p) Field.data ∧
          cell (afterStores p self k) Field.sample
            = cell (publish self p) Field.sample) ∧
      afterStores p self 5
        = self.setParameters p.data p.sample p.rows p.cols p.type := by
  refine ⟨?_, ?_, cell_afterStores self p k hk, ?_,
    foldl_store_eq_publish p self⟩
  · intro f
    rw [cell_afterStores self p k hk f]
    split
    · exact Or.inr rfl
    · exact Or.inl rfl
  · intro f
    rw [indexOf_setParametersStores]
    interval_cases k <;> cases f <;> simp [setParametersStores]
  · intro f hf hlt
    rw [indexOf_setParametersStores] at hlt
    have hd : setParametersStores.indexOf Field.data < k := by
      rw [indexOf_setParametersStores]
      rcases hf with h | h | h <;> subst h <;> simp only at hlt ⊢ <;> omega
    have hs : setParametersStores.indexOf Field.sample < k := by
      rw [indexOf_setParametersStores]
      rcases hf with h | h | h <;> subst h <;> simp only at hlt ⊢ <;> omega
    rw [cell_afterStores self p k hk Field.data,
      cell_afterStores self p k hk Field.sample, if_pos hd, if_pos hs]
    exact ⟨rfl, rfl⟩

/-- The scenario of the specification stopped after three stores on the
all-zero header: `data_`, `sample_` and `rows_` hold `42`, `7` and `480`,
`cols_` and `type_` still hold `0`. -/
theorem store_order_witness :
    3 ≤ 5 ∧
      afterStores scenarioParameters zeroHeader 3 =
        { rows_ := ⟨480, by decide⟩
          cols_ := ⟨0, by decide⟩
          type_ := ⟨0, by decide⟩
          data_ := ⟨42, by decide⟩
          sample_ := ⟨7, by decide⟩ } ∧
      ((∀ f : Field,
          cell (afterStores scenarioParameters zeroHeader 3) f
              = cell zeroHeader f ∨
            cell (afterStores scenarioParameters zeroHeader 3) f
              = cell (publish zeroHeader scenarioParameters) f) ∧
        (∀ f : Field, f ∈ setParametersStores.take 3 ↔
          setParametersStores.indexOf f < 3) ∧
        (∀ f : Field, cell (afterStores scenarioParameters zeroHeader 3) f =
          if setParametersStores.indexOf f < 3 then
            cell (publish zeroHeader scenarioParameters) f
          else cell zeroHeader f) ∧
        (∀ f : Field, f = Field.rows ∨ f = Field.cols ∨ f = Field.type →
          setParametersStores.indexOf f < 3 →
          cell (afterStores scenarioParameters zeroHeader 3) Field.data
              = cell (publish zeroHeader scenarioParameters) Field.data ∧
            cell (afterStores scenarioParameters zeroHeader 3) Field.sample
              = cell (publish zeroHeader scenarioParameters) Field.sample) ∧
        afterStores scenarioParameters zeroHeader 5
          = zeroHeader.setParameters scenarioParameters.data
              scenarioParameters.sample scenarioParameters.rows
              scenarioParameters.cols scenarioParameters.type) :=
  ⟨by decide, by decide,
    store_order zeroHeader scenarioParameters 3 (by decide)⟩

end oat
